import Mathlib

/-!
Verification of the payment-service examples in `src/solid_principles`
(`isp/after.py`, `liskov/after.py`, `open_close/after.py`).

The three variant files share the same data model and validators, embedded
once below.  The stripe payment gateway, the notification transports and the
log file are external collaborators; the gateway is modelled as a record of
operations that either return a result or raise (`Except`), and the
output-only transports and the log append are modelled as succeeding calls.
Python exceptions are values of `PyError`; a function that can raise returns
`Except PyError _`.  Python truthiness is made explicit: `not s` on an
`Optional[str]` is true for `None` and `""`, and `not n` on an `int` is true
exactly for `0`.
-/

/-- Python truthiness of an `Optional[str]` field: `None` and `""` are falsy. -/
def optStrTruthy : Option String → Bool
  | none => false
  | some s => s != ""

/-- Exceptions raised by the embedded code. `valueError` is the validators
raising `ValueError`, `stripeError` is the gateway's `StripeError`,
`typeError` is a call-arity error, `exception` is a bare `Exception`. -/
inductive PyError where
  | valueError (msg : String)
  | stripeError (msg : String)
  | typeError (msg : String)
  | exception (msg : String)
deriving DecidableEq

/-- `ContactInfo(BaseModel)`: optional email and phone. -/
structure ContactInfo where
  email : Option String := none
  phone : Option String := none
deriving DecidableEq

/-- `CustomerData(BaseModel)`: name, contact info, and (ISP variant only) an
optional external id.  `contact_info` is a required field, so the validator
branch `if not customer_data.contact_info` is dead code: a constructed model
instance is always truthy. -/
structure CustomerData where
  name : String
  contact_info : ContactInfo
  id : Option String := none
deriving DecidableEq

/-- `PaymentData(BaseModel)`: amount (int, unconstrained) and source token. -/
structure PaymentData where
  amount : Int
  source : String
deriving DecidableEq

/-- `PaymentResponse` dataclass of the ISP variant. -/
structure PaymentResponse where
  status : String
  amount : Int
  id : Option String := none
  message : Option String := none
deriving DecidableEq

/-- `ValidateData.validate_customer_data` (identical in all three files).
`not customer_data.name` is `name == ""`; the `not customer_data.contact_info`
branch never fires (required model field); the last branch uses Python
truthiness on the two optional strings. -/
def validate_customer_data (customer_data : CustomerData) : Except PyError Unit :=
  if customer_data.name = "" then
    .error (.valueError "Invalid customer data: missing name")
  else if !optStrTruthy customer_data.contact_info.email &&
      !optStrTruthy customer_data.contact_info.phone then
    .error (.valueError "Invalid customer data: missing email or phone")
  else
    .ok ()

/-- `ValidatePaymentData.validate_payment_data` (identical in all three files).
`not payment_data.amount` is Python truthiness on an `int`: it holds exactly
when `amount == 0`; negative integers are truthy. -/
def validate_payment_data (payment_data : PaymentData) : Except PyError Bool :=
  if payment_data.amount = 0 ∨ payment_data.source = "" then
    .error (.valueError "Invalid payment data")
  else
    .ok true

/-- A charge record returned by `stripe.Charge.create`. -/
structure ChargeRecord where
  status : String
  amount : Int
  id : String
deriving DecidableEq

/-- A subscription record returned by `stripe.Subscription.create`; the
`unit_amount` field is `subscription["items"]["data"][0]["price"]["unit_amount"]`. -/
structure SubscriptionRecord where
  status : String
  id : String
  unit_amount : Int
deriving DecidableEq

/-- The external stripe gateway, modelled as a record of the five operations
used by the source; each can return a record or raise. -/
structure Gateway where
  createCharge : Int → String → String → String → Except PyError ChargeRecord
  createCustomer : Option String → Except PyError String
  attachPaymentMethod : String → String → Except PyError String
  setDefaultPaymentMethod : String → String → Except PyError Unit
  createSubscription : String → Option String → Except PyError SubscriptionRecord

/-- Modelled external id generation: `uuid.uuid4()` draws a globally fresh
identifier.  The freshness contract of the library is embedded as a call
counter rendered injectively as a string. -/
def uuid4 (counter : Nat) : String :=
  String.mk (List.replicate counter 'u')

/-- Observable external effects of the façade pipeline, recorded at the call
sites of `process_payments` in source order. -/
inductive Event where
  | charge_attempted
  | notify_attempted
  | log_attempted
deriving DecidableEq

namespace Isp

/-- `ProcessPayment.process_transaction` (isp/after.py 124-146): calls
`stripe.Charge.create`; on success builds a `PaymentResponse` from the charge
record; `except StripeError` converts the failure into a response with status
`"payment_failed"` and amount 0; any other error propagates. -/
def ProcessPayment.process_transaction (gw : Gateway) (customer_data : CustomerData)
    (payment_data : PaymentData) : Except PyError PaymentResponse :=
  match gw.createCharge payment_data.amount "usd" payment_data.source
      ("Charge for " ++ customer_data.name) with
  | .ok charge =>
      .ok { status := charge.status, amount := charge.amount, id := some charge.id,
            message := some "Payment successful" }
  | .error (.stripeError e) =>
      .ok { status := "payment_failed", amount := 0, id := none, message := some e }
  | .error e => .error e

/-- `ProcessPayment.refund_transaction` (isp/after.py 148-155): pure, always
returns a `"payment_refunded"` response echoing the transaction id. -/
def ProcessPayment.refund_transaction (transaction_id : String) : PaymentResponse :=
  { status := "payment_refunded", amount := 0, id := some transaction_id,
    message := some "Payment refunded successfully" }

/-- Body of `ProcessPayment.setup_recurrence` (isp/after.py 157-185) before
the `except StripeError` handler: create customer, attach payment method, set
it as default, create subscription, and answer with the subscription's status,
unit amount and id. -/
def ProcessPayment.setupRecurrenceBody (gw : Gateway) (price_id : Option String)
    (customer_data : CustomerData) (payment_data : PaymentData) :
    Except PyError PaymentResponse :=
  match gw.createCustomer customer_data.contact_info.email with
  | .error e => .error e
  | .ok customer =>
    match gw.attachPaymentMethod payment_data.source customer with
    | .error e => .error e
    | .ok payment_method =>
      match gw.setDefaultPaymentMethod customer payment_method with
      | .error e => .error e
      | .ok _ =>
        match gw.createSubscription customer price_id with
        | .error e => .error e
        | .ok subscription =>
          .ok { status := subscription.status, amount := subscription.unit_amount,
                id := some subscription.id,
                message := some "Recurrence payment successful" }

/-- `ProcessPayment.setup_recurrence`: the body above with `except StripeError`
converting a gateway failure into a `"recurrence_payment_failed"` response. -/
def ProcessPayment.setup_recurrence (gw : Gateway) (price_id : Option String)
    (customer_data : CustomerData) (payment_data : PaymentData) :
    Except PyError PaymentResponse :=
  match ProcessPayment.setupRecurrenceBody gw price_id customer_data payment_data with
  | .error (.stripeError e) =>
      .ok { status := "recurrence_payment_failed", amount := 0, id := none,
            message := some e }
  | r => r

/-- `OffLinePaymentProcessor.process_payments` (isp/after.py 196-207): total,
fabricates a `"offline_payment_processed"` response echoing the requested
amount with a fresh `uuid4` id; the second component is the advanced id
counter. -/
def OffLinePaymentProcessor.process_payments (uuid_counter : Nat)
    (_customer_data : CustomerData) (payment_data : PaymentData) :
    PaymentResponse × Nat :=
  ({ status := "offline_payment_processed", amount := payment_data.amount,
     id := some (uuid4 uuid_counter),
     message := some "Offline payment processed successfully" }, uuid_counter + 1)

/-- `EmailNotify.notify_customer`: builds and prints an email; output-only,
modelled as a succeeding call (possibly-failing notifiers are covered by the
generic `notify` field of `PaymentService`). -/
def EmailNotify.notify_customer (_customer_data : CustomerData) : Except PyError Unit :=
  .ok ()

/-- `LogTransaction.log_transaction`: appends three lines to
`transactions.log`; modelled as a succeeding call (a failing sink is covered
by the generic `log_transaction` field of `PaymentService`). -/
def LogTransaction.log_transaction (_customer_data : CustomerData)
    (_payment_data : PaymentData) (_charge : PaymentResponse) : Except PyError Unit :=
  .ok ()

/-- `PaymentService` dataclass (isp/after.py 210-218): injected collaborators;
refund and recurrence executors default to `None`. -/
structure PaymentService where
  process_payment : CustomerData → PaymentData → Except PyError PaymentResponse
  notify : CustomerData → Except PyError Unit
  log_transaction : CustomerData → PaymentData → PaymentResponse → Except PyError Unit
  refund_payment_processor : Option (String → Except PyError PaymentResponse) := none
  recurrence_payment_processor :
    Option (CustomerData → PaymentData → Except PyError PaymentResponse) := none

/-- `PaymentService.process_payments` (isp/after.py 220-234): validate
customer, validate payment, charge, notify, log, return the charge; the
`except Exception as e: raise e` clause re-raises any stage's error
unchanged.  The event list records which external calls were made. -/
def PaymentService.process_payments (s : PaymentService) (payment_data : PaymentData)
    (customer_data : CustomerData) : Except PyError PaymentResponse × List Event :=
  match validate_customer_data customer_data with
  | .error e => (.error e, [])
  | .ok _ =>
    match validate_payment_data payment_data with
    | .error e => (.error e, [])
    | .ok _ =>
      match s.process_payment customer_data payment_data with
      | .error e => (.error e, [.charge_attempted])
      | .ok charge =>
        match s.notify customer_data with
        | .error e => (.error e, [.charge_attempted, .notify_attempted])
        | .ok _ =>
          match s.log_transaction customer_data payment_data charge with
          | .error e =>
              (.error e, [.charge_attempted, .notify_attempted, .log_attempted])
          | .ok _ =>
              (.ok charge, [.charge_attempted, .notify_attempted, .log_attempted])

/-- `PaymentService.refund_payment` (isp/after.py 236-241): raises a bare
`Exception` when no refund executor is configured; otherwise delegates and
then calls `self.log_transaction.log_transaction(transaction_id, response)`,
which passes two arguments to the three-parameter method
`LogTransaction.log_transaction`, so Python raises a `TypeError` at that call
before the response is returned. -/
def PaymentService.refund_payment (s : PaymentService) (transaction_id : String) :
    Except PyError PaymentResponse :=
  match s.refund_payment_processor with
  | none => .error (.exception "Refund payment processor not supported")
  | some refund =>
    match refund transaction_id with
    | .error e => .error e
    | .ok _response =>
        .error (.typeError "log_transaction() missing 1 required positional argument")

/-- The default composition `PaymentService()` over a gateway: gateway-backed
charge executor, email notifier, default logger, no refund or recurrence
executor. -/
def mkService (gw : Gateway) : PaymentService :=
  { process_payment := ProcessPayment.process_transaction gw
    notify := EmailNotify.notify_customer
    log_transaction := LogTransaction.log_transaction }

end Isp

namespace Liskov

/-- `ProcessPayment.process_transaction` (liskov/after.py 104-118): calls
`stripe.Charge.create` and returns the raw charge record; its
`except StripeError as e: raise e` clause re-raises the gateway error
unchanged, so a gateway failure propagates. -/
def ProcessPayment.process_transaction (gw : Gateway) (customer_data : CustomerData)
    (payment_data : PaymentData) : Except PyError ChargeRecord :=
  gw.createCharge payment_data.amount "usd" payment_data.source
    ("Charge for " ++ customer_data.name)

/-- `PaymentService.process_payments` (liskov/after.py 128-138) with the
default collaborators: validate customer, validate payment, charge, notify
(output-only, succeeds), log (succeeds), return the charge; the
`except Exception` clause re-raises unchanged. -/
def PaymentService.process_payments (gw : Gateway) (payment_data : PaymentData)
    (customer_data : CustomerData) : Except PyError ChargeRecord :=
  match validate_customer_data customer_data with
  | .error e => .error e
  | .ok _ =>
    match validate_payment_data payment_data with
    | .error e => .error e
    | .ok _ =>
      match ProcessPayment.process_transaction gw customer_data payment_data with
      | .error e => .error e
      | .ok charge => .ok charge

end Liskov

namespace OpenClose

/-- The channel through which `NotifyCustomer` delivered the confirmation. -/
inductive Channel where
  | email (addr : String)
  | sms (addr : String)
  | noContact
deriving DecidableEq

/-- `NotifyCustomer.notify_customer` (open_close/after.py 48-62): if the email
is truthy, send the email; elif the phone is truthy, send the SMS; else print
a diagnostic and do nothing. -/
def NotifyCustomer.notify_customer (customer_data : CustomerData) : Channel :=
  if optStrTruthy customer_data.contact_info.email then
    Channel.email (customer_data.contact_info.email.getD "")
  else if optStrTruthy customer_data.contact_info.phone then
    Channel.sms (customer_data.contact_info.phone.getD "")
  else
    Channel.noContact

end OpenClose

/-- A gateway whose charge creation fails with a `StripeError`, simulating a
card decline; the recurrence operations also fail. -/
def gwDecline : Gateway :=
  { createCharge := fun _ _ _ _ => .error (.stripeError "Your card was declined.")
    createCustomer := fun _ => .error (.stripeError "gateway down")
    attachPaymentMethod := fun _ _ => .error (.stripeError "gateway down")
    setDefaultPaymentMethod := fun _ _ => .error (.stripeError "gateway down")
    createSubscription := fun _ _ => .error (.stripeError "gateway down") }

/-- A stub gateway on which every operation succeeds; the subscription it
creates has unit price 1500. -/
def gwOk : Gateway :=
  { createCharge := fun amount _ _ _ => .ok { status := "succeeded", amount := amount, id := "ch_1" }
    createCustomer := fun _ => .ok "cus_1"
    attachPaymentMethod := fun payment_method _ => .ok payment_method
    setDefaultPaymentMethod := fun _ _ => .ok ()
    createSubscription := fun _ _ => .ok { status := "active", id := "sub_1", unit_amount := 1500 } }

/-- The sample customer of the demonstration entry point. -/
def johnDoe : CustomerData :=
  { name := "John Doe", contact_info := { email := some "example@mail.com" } }

/-- The sample payment of the demonstration entry point. -/
def pd500 : PaymentData :=
  { amount := 500, source := "tok_mastercard" }

/-- A customer with both an email and a phone on file. -/
def bothContacts : CustomerData :=
  { name := "Jane Roe", contact_info := { email := some "jane@mail.com", phone := some "5551234" } }

/-- The default ISP service over the always-succeeding gateway (no refund
executor configured). -/
def svcNoRefund : Isp.PaymentService := Isp.mkService gwOk

/-- The ISP service with the stripe-backed `ProcessPayment` configured as the
refund executor, as done in the demonstration entry point. -/
def svcWithRefund : Isp.PaymentService :=
  { Isp.mkService gwOk with
    refund_payment_processor :=
      some fun transaction_id => .ok (Isp.ProcessPayment.refund_transaction transaction_id) }

/-- The modelled `uuid4` supply never repeats an identifier. -/
theorem uuid4_injective (m n : Nat) (h : uuid4 m = uuid4 n) : m = n := by
  have h2 : List.replicate m 'u' = List.replicate n 'u' := congrArg String.data h
  have h3 := congrArg List.length h2
  simpa using h3

/-- C1 counterexample: on the declined-card gateway with the sample valid
inputs, the Liskov variant's `process_payments` raises the gateway error
instead of returning a failed response, and the ISP variant's failed
response carries status "payment_failed", which is not the claimed
"failed". -/
theorem c1_counterexample :
    Liskov.PaymentService.process_payments gwDecline pd500 johnDoe =
      .error (.stripeError "Your card was declined.")
    ∧ ((Isp.mkService gwDecline).process_payments pd500 johnDoe).1 =
      .ok { status := "payment_failed", amount := 0, id := none,
            message := some "Your card was declined." }
    ∧ "payment_failed" ≠ "failed" := by
  refine ⟨rfl, rfl, ?_⟩
  decide

/-- C1 (amended): for valid inputs and a gateway whose charge creation fails
with a `StripeError`, the ISP variant's `process_payments` does not raise: the
charge executor converts the failure into a response with status
"payment_failed" and amount 0 and the pipeline continues to notify and log;
the Liskov variant's `process_payments` re-raises the same gateway error. -/
theorem c1_gateway_failure_containment (gw : Gateway) (pd : PaymentData)
    (cd : CustomerData) (msg : String)
    (hcust : validate_customer_data cd = .ok ())
    (hpay : validate_payment_data pd = .ok true)
    (hgw : gw.createCharge pd.amount "usd" pd.source ("Charge for " ++ cd.name) =
      .error (.stripeError msg)) :
    (Isp.mkService gw).process_payments pd cd =
      (.ok { status := "payment_failed", amount := 0, id := none, message := some msg },
       [.charge_attempted, .notify_attempted, .log_attempted])
    ∧ Liskov.PaymentService.process_payments gw pd cd = .error (.stripeError msg) := by
  constructor
  · unfold Isp.PaymentService.process_payments
    rw [hcust, hpay]
    simp [Isp.mkService, Isp.ProcessPayment.process_transaction, hgw,
      Isp.EmailNotify.notify_customer, Isp.LogTransaction.log_transaction]
  · unfold Liskov.PaymentService.process_payments
    rw [hcust, hpay]
    simp [Liskov.ProcessPayment.process_transaction, hgw]

/-- C1 witness: the amended behavior at the sample inputs over the
declined-card gateway. -/
theorem c1_gateway_failure_containment_witness :
    (Isp.mkService gwDecline).process_payments pd500 johnDoe =
      (.ok { status := "payment_failed", amount := 0, id := none,
             message := some "Your card was declined." },
       [.charge_attempted, .notify_attempted, .log_attempted])
    ∧ Liskov.PaymentService.process_payments gwDecline pd500 johnDoe =
      .error (.stripeError "Your card was declined.") :=
  c1_gateway_failure_containment gwDecline pd500 johnDoe "Your card was declined."
    rfl rfl rfl

/-- C2: with no refund executor configured, `refund_payment` raises the
capability error; with one configured it does NOT return the refunded
response: the two-argument call to the three-parameter
`LogTransaction.log_transaction` raises a `TypeError` first.  The executor
itself builds a response with status "payment_refunded" echoing the
transaction id. -/
theorem c2_refund_behavior :
    svcNoRefund.refund_payment "txn_123" =
      .error (.exception "Refund payment processor not supported")
    ∧ svcWithRefund.refund_payment "txn_123" =
      .error (.typeError "log_transaction() missing 1 required positional argument")
    ∧ Isp.ProcessPayment.refund_transaction "txn_123" =
      { status := "payment_refunded", amount := 0, id := some "txn_123",
        message := some "Payment refunded successfully" } :=
  ⟨rfl, rfl, rfl⟩

/-- C3 counterexample: the payment `{amount := -1, source := "tok_visa"}` has
amount ≤ 0, yet `validate_payment_data` succeeds: the Python truthiness check
`not payment_data.amount` catches only zero. -/
theorem c3_counterexample :
    (-1 : Int) ≤ 0
    ∧ validate_payment_data { amount := -1, source := "tok_visa" } = .ok true := by
  refine ⟨by decide, ?_⟩
  rfl

/-- C3 (amended): `validate_payment_data` fails with a `ValueError` exactly
when the amount equals 0 or the source is empty; negative amounts pass. -/
theorem c3_validate_payment_iff (pd : PaymentData) :
    (∃ msg, validate_payment_data pd = .error (.valueError msg)) ↔
      (pd.amount = 0 ∨ pd.source = "") := by
  unfold validate_payment_data
  by_cases h : pd.amount = 0 ∨ pd.source = ""
  · simp [h]
  · simp [h]

/-- C4: for every service composition, when customer validation fails, or
customer validation passes and payment validation fails, `process_payments`
returns that validation error unchanged and the event trace is empty: no
charge attempt, no notification, no log append. -/
theorem c4_validation_fails_fast (s : Isp.PaymentService) (pd : PaymentData)
    (cd : CustomerData) (e : PyError)
    (h : validate_customer_data cd = .error e ∨
      (validate_customer_data cd = .ok () ∧ validate_payment_data pd = .error e)) :
    s.process_payments pd cd = (.error e, []) := by
  rcases h with hc | ⟨hc, hp⟩
  · unfold Isp.PaymentService.process_payments
    rw [hc]
  · unfold Isp.PaymentService.process_payments
    rw [hc, hp]

/-- C4 witness: a customer with an empty name over the succeeding gateway:
the validation error surfaces and no external call is made. -/
theorem c4_validation_fails_fast_witness :
    (Isp.mkService gwOk).process_payments pd500
      { name := "", contact_info := { email := some "example@mail.com" } } =
      (.error (.valueError "Invalid customer data: missing name"), []) :=
  c4_validation_fails_fast (Isp.mkService gwOk) pd500
    { name := "", contact_info := { email := some "example@mail.com" } }
    (.valueError "Invalid customer data: missing name") (Or.inl rfl)

/-- C5: `validate_customer_data` fails with a `ValueError` exactly when the
name is empty or both the email and the phone are falsy (absent or empty);
equivalently it passes exactly when the name is non-empty and at least one
contact channel is present.  The claimed "contact_info is absent" case is
unrepresentable: the field is required. -/
theorem c5_validate_customer_iff (cd : CustomerData) :
    ((∃ msg, validate_customer_data cd = .error (.valueError msg)) ↔
      (cd.name = "" ∨ (optStrTruthy cd.contact_info.email = false ∧
        optStrTruthy cd.contact_info.phone = false)))
    ∧ (validate_customer_data cd = .ok () ↔
      (cd.name ≠ "" ∧ (optStrTruthy cd.contact_info.email = true ∨
        optStrTruthy cd.contact_info.phone = true))) := by
  unfold validate_customer_data
  by_cases hn : cd.name = ""
  · simp [hn]
  · by_cases he : optStrTruthy cd.contact_info.email
    · simp [hn, he]
    · by_cases hp : optStrTruthy cd.contact_info.phone
      · simp [hn, he, hp]
      · simp [hn, he, hp]

/-- C6: whenever every gateway step of a recurrence setup succeeds and the
created subscription is `sub`, the returned response carries
`sub.unit_amount` as its amount (the subscription's unit price, not the
requested amount) together with the subscription's status and id. -/
theorem c6_recurrence_amount (gw : Gateway) (price_id : Option String)
    (cd : CustomerData) (pd : PaymentData) (cust pm : String)
    (sub : SubscriptionRecord)
    (hc : gw.createCustomer cd.contact_info.email = .ok cust)
    (ha : gw.attachPaymentMethod pd.source cust = .ok pm)
    (hs : gw.setDefaultPaymentMethod cust pm = .ok ())
    (hb : gw.createSubscription cust price_id = .ok sub) :
    Isp.ProcessPayment.setup_recurrence gw price_id cd pd =
      .ok { status := sub.status, amount := sub.unit_amount, id := some sub.id,
            message := some "Recurrence payment successful" } := by
  unfold Isp.ProcessPayment.setup_recurrence Isp.ProcessPayment.setupRecurrenceBody
  simp only [hc, ha, hs, hb]

/-- C6 witness: over the stub gateway whose subscription unit price is 1500,
a recurrence setup for the 500-unit sample request answers amount 1500. -/
theorem c6_recurrence_amount_witness :
    Isp.ProcessPayment.setup_recurrence gwOk (some "price_1") johnDoe pd500 =
      .ok { status := "active", amount := 1500, id := some "sub_1",
            message := some "Recurrence payment successful" } :=
  c6_recurrence_amount gwOk (some "price_1") johnDoe pd500 "cus_1" "tok_mastercard"
    { status := "active", id := "sub_1", unit_amount := 1500 } rfl rfl rfl rfl

/-- C7 counterexample: the offline processor's response at the sample input
has status "offline_payment_processed", not the claimed "offline-processed". -/
theorem c7_counterexample :
    (Isp.OffLinePaymentProcessor.process_payments 0 johnDoe pd500).1.status =
      "offline_payment_processed"
    ∧ (Isp.OffLinePaymentProcessor.process_payments 0 johnDoe pd500).1.status ≠
      "offline-processed" := by
  refine ⟨rfl, ?_⟩
  decide

/-- C7 (amended): the offline processor is total (it never raises); every
call returns status "offline_payment_processed" with the freshly generated
`uuid4` identifier of its counter, and the identifiers of two successive
calls are distinct. -/
theorem c7_offline_charge (ctr : Nat) (cd cd2 : CustomerData) (pd pd2 : PaymentData) :
    (Isp.OffLinePaymentProcessor.process_payments ctr cd pd).1.status =
      "offline_payment_processed"
    ∧ (Isp.OffLinePaymentProcessor.process_payments ctr cd pd).1.id =
      some (uuid4 ctr)
    ∧ (Isp.OffLinePaymentProcessor.process_payments
        (Isp.OffLinePaymentProcessor.process_payments ctr cd pd).2 cd2 pd2).1.id ≠
      (Isp.OffLinePaymentProcessor.process_payments ctr cd pd).1.id := by
  refine ⟨rfl, rfl, ?_⟩
  intro hco
  simp only [Isp.OffLinePaymentProcessor.process_payments, Option.some.injEq] at hco
  have := uuid4_injective (ctr + 1) ctr hco
  omega

/-- C8: for every service composition, the ISP `process_payments` surfaces an
error `e` exactly when its first failing stage failed with that very error:
customer validation, then payment validation, then the charge executor, then
the notifier, then the logger.  Errors are re-raised unchanged and never
converted into a response value. -/
theorem c8_error_propagation (s : Isp.PaymentService) (pd : PaymentData)
    (cd : CustomerData) (e : PyError) :
    (s.process_payments pd cd).1 = .error e ↔
      (validate_customer_data cd = .error e
       ∨ (validate_customer_data cd = .ok ()
          ∧ validate_payment_data pd = .error e)
       ∨ (validate_customer_data cd = .ok ()
          ∧ (∃ b, validate_payment_data pd = .ok b)
          ∧ s.process_payment cd pd = .error e)
       ∨ (validate_customer_data cd = .ok ()
          ∧ (∃ b, validate_payment_data pd = .ok b)
          ∧ (∃ r, s.process_payment cd pd = .ok r)
          ∧ s.notify cd = .error e)
       ∨ (validate_customer_data cd = .ok ()
          ∧ (∃ b, validate_payment_data pd = .ok b)
          ∧ s.notify cd = .ok ()
          ∧ (∃ r, s.process_payment cd pd = .ok r
              ∧ s.log_transaction cd pd r = .error e))) := by
  unfold Isp.PaymentService.process_payments
  cases hv : validate_customer_data cd with
  | error e1 => simp
  | ok u =>
    cases u
    cases hp : validate_payment_data pd with
    | error e2 => simp
    | ok b =>
      cases hg : s.process_payment cd pd with
      | error e3 => simp
      | ok charge =>
        cases hn : s.notify cd with
        | error e4 => simp
        | ok u2 =>
          cases u2
          cases hl : s.log_transaction cd pd charge with
          | error e5 => simp [hg, hl]
          | ok u3 => simp [hg, hl]

/-- C9: when the customer has a non-empty email on file, the Open/Closed
notifier sends through the email channel, never through the SMS channel,
whatever the phone field holds: email takes precedence. -/
theorem c9_email_precedence (cd : CustomerData) (e t : String)
    (he : cd.contact_info.email = some e) (hen : e ≠ "")
    (hp : cd.contact_info.phone = some t) (hpn : t ≠ "") :
    OpenClose.NotifyCustomer.notify_customer cd = OpenClose.Channel.email e := by
  unfold OpenClose.NotifyCustomer.notify_customer
  have ht : optStrTruthy cd.contact_info.email = true := by
    simp [optStrTruthy, he, hen]
  rw [ht]
  simp [he]

/-- C9 witness: the customer with both channels on file is notified through
the email channel. -/
theorem c9_email_precedence_witness :
    OpenClose.NotifyCustomer.notify_customer bothContacts =
      OpenClose.Channel.email "jane@mail.com" :=
  c9_email_precedence bothContacts "jane@mail.com" "5551234" rfl (by decide) rfl (by decide)

/-- C10: the offline processor echoes the requested amount in its response,
for every counter state, customer and payment. -/
theorem c10_offline_amount_echo (ctr : Nat) (cd : CustomerData) (pd : PaymentData) :
    (Isp.OffLinePaymentProcessor.process_payments ctr cd pd).1.amount = pd.amount :=
  rfl
